import Mathlib

/-!
Shallow embedding of `src/app.py` (WTRTK-982 serial configuration bridge).

The program is a Flask app with two POST endpoints, `write_config` and
`save_config`, that open a serial port, write line-oriented ASCII commands,
drain the inbound buffer for a fixed two-second window per command, close the
port and return a JSON response.

Modelling conventions:
* Time is measured in 10 ms ticks, the granularity of the `time.sleep(0.01)`
  call inside the drain loop.  Each loop iteration advances the clock by one
  tick; the time taken by `readline` itself is idealised to zero.  The drain
  window `READ_RESPONSE_DURATION = 2` seconds is therefore 200 ticks.
* The serial device is modelled as an oracle (`SerialBehavior`): whether the
  open raises, what the n-th `ser.write` call raises (if anything), and what a
  poll of the port observes at each tick.  A poll observes either no pending
  bytes (`in_waiting == 0`), a raw line of bytes returned by `readline`, or an
  exception raised by `readline`.  The `ser.in_waiting` availability check is
  modelled as total (it reports availability and does not itself raise); the
  try block of lines 65-76 of the source covers the read and decode calls.
* Bytes are `Nat` values; a byte decodes under the `ascii` codec iff it is
  below 128, and `errors=ignore` drops every byte that does not decode.
* Python exceptions are explicit: `serial.SerialException` and the
  generic `Exception` catch-all are the two handler classes of the source.
-/

namespace WTRTK

set_option maxRecDepth 8192

/-- `SERIAL_TIMEOUT` from app.py line 16 (seconds). -/
def SERIAL_TIMEOUT : Nat := 1

/-- `READ_RESPONSE_DURATION` from app.py line 18 (seconds). -/
def READ_RESPONSE_DURATION : Nat := 2

/-- The drain loop sleeps 0.01 s per iteration, so one second is 100 ticks. -/
def TICKS_PER_SECOND : Nat := 100

/-- The drain window expressed in 10 ms ticks: 2 s = 200 ticks. -/
def READ_RESPONSE_TICKS : Nat := READ_RESPONSE_DURATION * TICKS_PER_SECOND

/-- The characters that Python `str.strip()` removes, restricted to the ASCII
range (codepoints 9-13, 28-31 and 32 satisfy `str.isspace`).  The embedding
only ever strips strings whose characters are ASCII. -/
def isPyWhitespace (c : Char) : Bool :=
  c.toNat = 9 || c.toNat = 10 || c.toNat = 11 || c.toNat = 12 || c.toNat = 13 ||
  c.toNat = 28 || c.toNat = 29 || c.toNat = 30 || c.toNat = 31 || c.toNat = 32

/-- Python `str.strip()` on a list of characters: drop leading and trailing
whitespace. -/
def pyStripList (cs : List Char) : List Char :=
  ((cs.dropWhile isPyWhitespace).reverse.dropWhile isPyWhitespace).reverse

/-- Python `str.strip()`. -/
def pyStrip (s : String) : String := ⟨pyStripList s.data⟩

/-- Python `bytes.decode("ascii", errors="ignore")`: keep exactly the bytes
below 128, as characters; every undecodable byte is silently dropped.  This
decode never raises. -/
def decodeAsciiIgnore (bs : List Nat) : String :=
  ⟨bs.filterMap (fun b => if b < 128 then some (Char.ofNat b) else none)⟩

/-- Whether every character of the string is 7-bit ASCII. -/
def isAsciiString (s : String) : Bool := s.data.all (fun c => c.toNat < 128)

/-- Python `str.encode("ascii")`: the codepoints of the characters when all of
them are ASCII, and `none` (a raised `UnicodeEncodeError`) otherwise. -/
def encodeAscii (s : String) : Option (List Nat) :=
  if isAsciiString s then some (s.data.map Char.toNat) else none

/-- What one iteration of the drain loop observes on the port.
`quiet` is `ser.in_waiting == 0`; `line bs` is `in_waiting > 0` with
`ser.readline()` returning the raw bytes `bs`; `readErr m` is `in_waiting > 0`
with `ser.readline()` raising an exception whose text is `m`. -/
inductive PollEvent where
  | quiet : PollEvent
  | line (bs : List Nat) : PollEvent
  | readErr (msg : String) : PollEvent
deriving DecidableEq, Repr

/-- The body of one iteration of the drain loop (app.py lines 64-76): if bytes
are pending, read a line, decode it dropping undecodable bytes, strip it, and
record `Received: <line>` when non-empty; an exception from the read is caught
and recorded as `Error reading during <phase>: <msg>`.
The `except UnicodeDecodeError` branch of the source (the binary-data marker)
is unreachable because `errors=ignore` decoding never raises.  The result is
the transcript entry this iteration appends, if any. -/
def pollStep (phase : String) (ev : PollEvent) : Option String :=
  match ev with
  | PollEvent.quiet => none
  | PollEvent.line bs =>
      let l := pyStrip (decodeAsciiIgnore bs)
      if l = "" then none else some ("Received: " ++ l)
  | PollEvent.readErr msg => some ("Error reading during " ++ phase ++ ": " ++ msg)

/-- The drain loop of app.py lines 62-77 / 129-141:
`while (time.time() - start_time) < READ_RESPONSE_DURATION: poll; sleep(0.01)`.
The clock reads `start + elapsed` ticks; the loop guard `elapsed <
READ_RESPONSE_TICKS` is carried as the structurally decreasing count
`remaining = READ_RESPONSE_TICKS - elapsed` of ticks left in the window.
Returns the transcript entries produced, in order, and the tick at which the
loop hands control back. -/
def drainFrom (poll : Nat → PollEvent) (phase : String) (start : Nat) :
    Nat → Nat → List String × Nat
  | 0, elapsed => ([], start + elapsed)
  | remaining + 1, elapsed =>
      let out := (pollStep phase (poll (start + elapsed))).toList
      let rest := drainFrom poll phase start remaining (elapsed + 1)
      (out ++ rest.1, rest.2)

/-- `drainResponses` runs the full fixed window starting at tick `start`. -/
def drainResponses (poll : Nat → PollEvent) (phase : String) (start : Nat) :
    List String × Nat :=
  drainFrom poll phase start READ_RESPONSE_TICKS 0

/-- The two classes of Python exception the request handlers distinguish:
`serial.SerialException` (handled by the first `except` clause) and every
other `Exception` (handled by the catch-all clause). -/
inductive PyErr where
  | serialExc (msg : String) : PyErr
  | otherExc (msg : String) : PyErr
deriving DecidableEq, Repr

/-- The behaviour of the serial device during one request.
`openErr = some m` means `serial.Serial(...)` raises `SerialException m`;
`writeErrs.getD n none` is the exception (if any) raised by the n-th
`ser.write` call; `poll` is what the drain loop observes at each global
10 ms tick. -/
structure SerialBehavior where
  openErr : Option String
  writeErrs : List (Option PyErr)
  poll : Nat → PollEvent

/-- The outcome of the n-th `ser.write` call against this device. -/
def writeOutcome (env : SerialBehavior) (idx : Nat) : Option PyErr :=
  env.writeErrs.getD idx none

/-- Observable hardware interactions of one request: how many times
`serial.Serial` was called, how many of those calls succeeded, how many times
`ser.close` was called, which raw byte strings were written, and how many
drain windows were run. -/
structure Trace where
  openAttempts : Nat
  openOk : Nat
  closes : Nat
  writes : List (List Nat)
  drains : Nat
deriving DecidableEq, Repr

/-- The trace of a request that never touched the hardware. -/
def Trace.idle : Trace := ⟨0, 0, 0, [], 0⟩

/-- The JSON-bearing HTTP response: status code, the `status` field, the
`message` field, and the `received_data` field (absent on error responses). -/
structure HttpResp where
  code : Nat
  jstatus : String
  message : String
  received : Option String
deriving DecidableEq, Repr

/-- An error response with the given code and message. -/
def mkErr (code : Nat) (msg : String) : HttpResp :=
  ⟨code, "error", msg, none⟩

/-- Python truthiness of `data.get("port")`: `None` (absent or JSON null) and
the empty string are falsy. -/
def truthyStr : Option String → Bool
  | none => false
  | some s => s != ""

/-- Python truthiness of `data.get("baudrate")`: `None` and `0` are falsy. -/
def truthyInt : Option Int → Bool
  | none => false
  | some n => n != 0

/-- The JSON body of a `write_config` request after `request.get_json()`:
each field is `none` when absent (Python `dict.get` returns `None`). -/
structure WriteBody where
  port : Option String
  baudrate : Option Int
  commands : Option (List String)

/-- The JSON body of a `save_config` request. -/
structure SaveBody where
  port : Option String
  baudrate : Option Int

/-- The validation guard of app.py line 43,
`not all([port, baudrate, commands is not None])`, combined with the
`not data` guard of line 36: `true` exactly when the request proceeds to the
serial port. -/
def validWriteBody : Option WriteBody → Bool
  | none => false
  | some d => truthyStr d.port && truthyInt d.baudrate && d.commands.isSome

/-- The accumulated state of the command loop of app.py lines 56-77 when it
stops: the exception that escaped the loop (if any), the transcript lines,
the raw writes performed, the number of drain windows run, and the clock. -/
structure RunOut where
  err : Option PyErr
  lines : List String
  writes : List (List Nat)
  drains : Nat
  t : Nat
deriving DecidableEq, Repr

/-- The raw bytes `cmd.strip() + "\r\n"` encodes to when `cmd` is ASCII. -/
def cmdBytes (cmd : String) : List Nat :=
  (pyStrip cmd ++ "\r\n").data.map Char.toNat

/-- The `for cmd in commands` loop of app.py lines 56-77.  For each command:
build `cmd.strip() + "\r\n"`, encode it as ASCII (a non-ASCII character
raises `UnicodeEncodeError`, which the catch-all handler receives), perform
the write (which may raise), then drain the response window.  An exception
stops the loop at once, preserving the interactions performed so far. -/
def runCommands (env : SerialBehavior) :
    List String → Nat → Nat → List String → List (List Nat) → Nat → RunOut
  | [], _, t, lines, ws, dr => ⟨none, lines, ws, dr, t⟩
  | cmd :: rest, idx, t, lines, ws, dr =>
      match encodeAscii (pyStrip cmd ++ "\r\n") with
      | none =>
          ⟨some (PyErr.otherExc ("ascii codec cannot encode command: " ++ cmd)),
            lines, ws, dr, t⟩
      | some bytes =>
          match writeOutcome env idx with
          | some e => ⟨some e, lines, ws, dr, t⟩
          | none =>
              let d := drainResponses env.poll "command" t
              runCommands env rest (idx + 1) d.2 (lines ++ d.1) (ws ++ [bytes]) (dr + 1)

/-- The error message of app.py line 91 (`SerialException` handler of
`write_config`). -/
def openFailMsg (port e : String) : String :=
  "Failed to open or communicate with serial port \x27" ++ port ++ "\x27. Error: " ++ e

/-- The error message of app.py line 97 (catch-all handler of
`write_config`). -/
def unexpectedMsg (e : String) : String :=
  "An unexpected error occurred: " ++ e

/-- Lines 79-98 of app.py: how `write_config` finishes once the port is open
and the command loop has stopped.  On normal completion (no exception) the
port is closed once and the 200 response carries the joined transcript; an
exception reaches the handlers of lines 87-98 directly, skipping
`ser.close()`, so the port is left open on those paths. -/
def finishWrite (port : String) (out : RunOut) : HttpResp × Trace :=
  match out.err with
  | none =>
      (⟨200, "success", "Configuration commands sent successfully.",
          some (String.intercalate "\n" out.lines)⟩,
        ⟨1, 1, 1, out.writes, out.drains⟩)
  | some (PyErr.serialExc e) =>
      (mkErr 500 (openFailMsg port e), ⟨1, 1, 0, out.writes, out.drains⟩)
  | some (PyErr.otherExc e) =>
      (mkErr 500 (unexpectedMsg e), ⟨1, 1, 0, out.writes, out.drains⟩)

/-- Embedding of `write_config` (app.py lines 30-98).  Validation mirrors
lines 35-44; a failed open returns the 500 response of lines 87-92 with no
write, drain or close; after a successful open the command loop runs starting
at tick 10 (the `time.sleep(0.1)` settle delay of line 54). -/
def write_config (env : SerialBehavior) (body : Option WriteBody) :
    HttpResp × Trace :=
  match body with
  | none => (mkErr 400 "No JSON data received", Trace.idle)
  | some d =>
      if truthyStr d.port && truthyInt d.baudrate && d.commands.isSome then
        let port := d.port.getD ""
        match env.openErr with
        | some e => (mkErr 500 (openFailMsg port e), ⟨1, 0, 0, [], 0⟩)
        | none => finishWrite port (runCommands env (d.commands.getD []) 0 10 [] [] 0)
      else (mkErr 400 "Missing port, baudrate, or commands", Trace.idle)

/-- The error message of app.py line 155 (`SerialException` handler of
`save_config`). -/
def saveFailMsg (port e : String) : String :=
  "Failed to open or communicate with serial port \x27" ++ port ++
    "\x27 for saving. Error: " ++ e

/-- Embedding of `save_config` (app.py lines 100-162): identical lifecycle to
`write_config` with the single fixed command string `"SAVECONFIG\r\n"`
(already carrying its terminator, written without a strip) and drain phase
`save`.  Note: line 116 of the source is indented with three U+3000
ideographic space characters, which is a Python `SyntaxError`, so the module
as shipped fails to load; the embedding repairs that indentation and models
the evident intent of the line. -/
def save_config (env : SerialBehavior) (body : Option SaveBody) :
    HttpResp × Trace :=
  match body with
  | none => (mkErr 400 "No JSON data received", Trace.idle)
  | some d =>
      if truthyStr d.port && truthyInt d.baudrate then
        let port := d.port.getD ""
        match env.openErr with
        | some e => (mkErr 500 (saveFailMsg port e), ⟨1, 0, 0, [], 0⟩)
        | none =>
            match encodeAscii "SAVECONFIG\r\n" with
            | none =>
                (mkErr 500 (unexpectedMsg "ascii codec cannot encode command: SAVECONFIG"),
                  ⟨1, 1, 0, [], 0⟩)
            | some bytes =>
                match writeOutcome env 0 with
                | some (PyErr.serialExc e) =>
                    (mkErr 500 (saveFailMsg port e), ⟨1, 1, 0, [], 0⟩)
                | some (PyErr.otherExc e) =>
                    (mkErr 500 (unexpectedMsg e), ⟨1, 1, 0, [], 0⟩)
                | none =>
                    let d2 := drainResponses env.poll "save" 10
                    (⟨200, "success", "Configuration saved to module successfully.",
                        some (String.intercalate "\n" d2.1)⟩,
                      ⟨1, 1, 1, [bytes], 1⟩)
      else (mkErr 400 "Missing port or baudrate", Trace.idle)

/-- The transcript the command loop accumulates when every write succeeds:
each command contributes one full drain window, windows laid out back to back
starting at tick `t`. -/
def commandTranscript (poll : Nat → PollEvent) : List String → Nat → List String
  | [], _ => []
  | _ :: rest, t =>
      (drainResponses poll "command" t).1 ++
        commandTranscript poll rest (t + READ_RESPONSE_TICKS)

/-- A device on which everything succeeds and the line is always silent. -/
def envQuiet : SerialBehavior :=
  ⟨none, [], fun _ => PollEvent.quiet⟩

/-- A poll stream delivering a read error at tick 3 and the line `RTK`
(bytes 82, 84, 75) at tick 7, inside the first drain window. -/
def envPollC3 : Nat → PollEvent := fun t =>
  if t = 3 then PollEvent.readErr "boom"
  else if t = 7 then PollEvent.line [82, 84, 75] else PollEvent.quiet

/-- A poll stream delivering one line of pure non-ASCII bytes at tick 5. -/
def envPollC2 : Nat → PollEvent := fun t =>
  if t = 5 then PollEvent.line [255, 254, 200] else PollEvent.quiet

/-- A device that opens fine, stays silent, and whose first write raises
`SerialException`. -/
def envWriteFail : SerialBehavior :=
  ⟨none, [some (PyErr.serialExc "write timeout")], fun _ => PollEvent.quiet⟩

/-- A device on which everything succeeds while the poll stream delivers the
undecodable line of `envPollC2`. -/
def envUndecodable : SerialBehavior :=
  ⟨none, [], envPollC2⟩

/-- A device whose open raises `SerialException`. -/
def envOpenFail : SerialBehavior :=
  ⟨some "No such file or directory", [], fun _ => PollEvent.quiet⟩

theorem drainFrom_closed (poll : Nat → PollEvent) (phase : String) (start : Nat) :
    ∀ (remaining elapsed : Nat),
      drainFrom poll phase start remaining elapsed =
        ((List.range remaining).filterMap
            (fun i => pollStep phase (poll (start + elapsed + i))),
          start + elapsed + remaining) := by
  intro remaining
  induction remaining with
  | zero => intro elapsed; simp [drainFrom]
  | succ n ih =>
      intro elapsed
      have h2 : start + (elapsed + 1) + n = start + elapsed + (n + 1) := by omega
      have hfun : (fun i => pollStep phase (poll (start + (elapsed + 1) + i)))
          = ((fun i => pollStep phase (poll (start + elapsed + i))) ∘ Nat.succ) := by
        funext i
        have h1 : start + (elapsed + 1) + i = start + elapsed + (i + 1) := by omega
        simp [Function.comp, h1]
      rw [drainFrom, ih (elapsed + 1), hfun, h2, List.range_succ_eq_map,
        List.filterMap_cons, List.filterMap_map]
      simp only [Nat.add_zero]
      cases hev : pollStep phase (poll (start + elapsed)) with
      | none => simp [hev]
      | some s => simp [hev]

theorem drainResponses_closed (poll : Nat → PollEvent) (phase : String) (start : Nat) :
    drainResponses poll phase start =
      ((List.range READ_RESPONSE_TICKS).filterMap
          (fun i => pollStep phase (poll (start + i))),
        start + READ_RESPONSE_TICKS) := by
  rw [drainResponses, drainFrom_closed]
  simp

theorem drainResponses_snd (poll : Nat → PollEvent) (phase : String) (start : Nat) :
    (drainResponses poll phase start).2 = start + READ_RESPONSE_TICKS := by
  rw [drainResponses_closed]

theorem mem_of_mem_pyStripList (x : Char) (cs : List Char) (h : x ∈ pyStripList cs) :
    x ∈ cs := by
  unfold pyStripList at h
  rw [List.mem_reverse] at h
  have h1 := (List.dropWhile_suffix isPyWhitespace).subset h
  rw [List.mem_reverse] at h1
  exact (List.dropWhile_suffix isPyWhitespace).subset h1

theorem isAsciiString_pyStrip (s : String) (h : isAsciiString s = true) :
    isAsciiString (pyStrip s) = true := by
  unfold isAsciiString at *
  show (pyStripList s.data).all _ = true
  rw [List.all_eq_true] at *
  intro c hc
  exact h c (mem_of_mem_pyStripList c s.data hc)

theorem isAsciiString_append (a b : String) :
    isAsciiString (a ++ b) = (isAsciiString a && isAsciiString b) := by
  unfold isAsciiString
  rw [String.data_append, List.all_append]

theorem encodeAscii_cmd (cmd : String) (h : isAsciiString cmd = true) :
    encodeAscii (pyStrip cmd ++ "\r\n") = some (cmdBytes cmd) := by
  have h1 : isAsciiString (pyStrip cmd ++ "\r\n") = true := by
    rw [isAsciiString_append, isAsciiString_pyStrip cmd h]
    decide
  unfold encodeAscii cmdBytes
  simp [h1]

theorem getD_none_of_all_isNone (l : List (Option PyErr))
    (h : l.all Option.isNone = true) (idx : Nat) : l.getD idx none = none := by
  induction l generalizing idx with
  | nil => simp
  | cons a as ih =>
      rw [List.all_cons, Bool.and_eq_true] at h
      cases idx with
      | zero => simpa [Option.isNone_iff_eq_none] using h.1
      | succ n => simpa using ih h.2 n

theorem writeOutcome_eq_none (env : SerialBehavior)
    (hw : env.writeErrs.all Option.isNone = true) (idx : Nat) :
    writeOutcome env idx = none :=
  getD_none_of_all_isNone env.writeErrs hw idx

theorem runCommands_all_ok (env : SerialBehavior)
    (hw : env.writeErrs.all Option.isNone = true) :
    ∀ (cmds : List String) (idx t : Nat) (lines : List String)
      (ws : List (List Nat)) (dr : Nat),
      (∀ c ∈ cmds, isAsciiString c = true) →
      runCommands env cmds idx t lines ws dr =
        ⟨none, lines ++ commandTranscript env.poll cmds t,
          ws ++ cmds.map cmdBytes, dr + cmds.length,
          t + cmds.length * READ_RESPONSE_TICKS⟩ := by
  intro cmds
  induction cmds with
  | nil =>
      intro idx t lines ws dr _
      simp [runCommands, commandTranscript]
  | cons c rest ih =>
      intro idx t lines ws dr hascii
      have hc : isAsciiString c = true := hascii c (List.mem_cons_self c rest)
      have hrest : ∀ x ∈ rest, isAsciiString x = true := fun x hx =>
        hascii x (List.mem_cons_of_mem c hx)
      rw [runCommands, encodeAscii_cmd c hc, writeOutcome_eq_none env hw idx]
      show runCommands env rest (idx + 1) (drainResponses env.poll "command" t).2
          (lines ++ (drainResponses env.poll "command" t).1)
          (ws ++ [cmdBytes c]) (dr + 1) = _
      rw [ih (idx + 1) (drainResponses env.poll "command" t).2
        (lines ++ (drainResponses env.poll "command" t).1)
        (ws ++ [cmdBytes c]) (dr + 1) hrest, drainResponses_snd]
      simp only [commandTranscript, RunOut.mk.injEq, List.append_assoc,
        List.singleton_append, List.cons_append, List.map_cons, List.length_cons,
        List.nil_append, true_and]
      refine ⟨?_, ?_⟩
      · omega
      · ring

/-- The shape of a fully successful `write_config` request: valid body, open
succeeds, every write succeeds, every command ASCII. -/
theorem write_config_success (env : SerialBehavior) (port : String) (baud : Int)
    (cmds : List String) (hp : port ≠ "") (hb : baud ≠ 0)
    (hopen : env.openErr = none) (hw : env.writeErrs.all Option.isNone = true)
    (hascii : ∀ c ∈ cmds, isAsciiString c = true) :
    write_config env (some ⟨some port, some baud, some cmds⟩) =
      (⟨200, "success", "Configuration commands sent successfully.",
          some (String.intercalate "\n" (commandTranscript env.poll cmds 10))⟩,
        ⟨1, 1, 1, cmds.map cmdBytes, cmds.length⟩) := by
  have hrun := runCommands_all_ok env hw cmds 0 10 [] [] 0 hascii
  simp [write_config, truthyStr, truthyInt, hp, hb, hopen, hrun, finishWrite]

theorem finishWrite_closes (port : String) (out : RunOut) :
    (finishWrite port out).2.closes =
      if (finishWrite port out).1.code = 200 then 1 else 0 := by
  rcases out with ⟨err, lines, ws, dr, t⟩
  cases err with
  | none => simp [finishWrite]
  | some e => cases e <;> simp [finishWrite, mkErr]

theorem write_config_closes_aux (env : SerialBehavior) (body : Option WriteBody)
    (hopen : (write_config env body).2.openOk = 1) :
    (write_config env body).2.closes =
      if (write_config env body).1.code = 200 then 1 else 0 := by
  cases body with
  | none => simp [write_config, Trace.idle] at hopen
  | some d =>
      by_cases hv : (truthyStr d.port && truthyInt d.baudrate && d.commands.isSome) = true
      · cases ho : env.openErr with
        | some e => simp [write_config, hv, ho] at hopen
        | none =>
            simp only [write_config, hv, ho, if_true]
            exact finishWrite_closes _ _
      · simp [write_config, hv, Trace.idle] at hopen

theorem save_config_closes_aux (env : SerialBehavior) (sbody : Option SaveBody)
    (hopen : (save_config env sbody).2.openOk = 1) :
    (save_config env sbody).2.closes =
      if (save_config env sbody).1.code = 200 then 1 else 0 := by
  have henc : encodeAscii "SAVECONFIG\r\n" =
      some ("SAVECONFIG\r\n".data.map Char.toNat) := by decide
  cases sbody with
  | none => simp [save_config, Trace.idle] at hopen
  | some d =>
      by_cases hv : (truthyStr d.port && truthyInt d.baudrate) = true
      · cases ho : env.openErr with
        | some e => simp [save_config, hv, ho] at hopen
        | none =>
            cases hw : writeOutcome env 0 with
            | none => simp [save_config, hv, ho, henc, hw]
            | some e => cases e <;> simp [save_config, hv, ho, henc, hw, mkErr]
      · simp [save_config, hv, Trace.idle] at hopen

/-- Counterexample to claim C1 as stated: on `envWriteFail` the open succeeds
(`openOk = 1`), the single write raises `SerialException`, and the 500
response is emitted with `ser.close()` never called (`closes = 0`): the
handle is not released before the response on this exit path. -/
theorem port_left_open_on_write_failure :
    (write_config envWriteFail
        (some ⟨some "/dev/ttyUSB0", some 115200, some ["MODE ROVER"]⟩)).2.openOk = 1 ∧
    (write_config envWriteFail
        (some ⟨some "/dev/ttyUSB0", some 115200, some ["MODE ROVER"]⟩)).1.code = 500 ∧
    (write_config envWriteFail
        (some ⟨some "/dev/ttyUSB0", some 115200, some ["MODE ROVER"]⟩)).2.closes = 0 :=
  ⟨by decide, by decide, by decide⟩

/-- Claim C1, amended: after a successful open, the port is closed exactly
once before the response only on normal completion (HTTP 200); on a write
failure or unexpected error after the open succeeded, both endpoints emit
the 500 response without ever calling `ser.close()`, leaking the handle.
Equivalently: the number of closes is 1 when the response code is 200 and 0
otherwise. -/
theorem close_iff_success_after_open (env : SerialBehavior)
    (body : Option WriteBody) (sbody : Option SaveBody)
    (h1 : (write_config env body).2.openOk = 1)
    (h2 : (save_config env sbody).2.openOk = 1) :
    ((write_config env body).2.closes =
      if (write_config env body).1.code = 200 then 1 else 0) ∧
    ((save_config env sbody).2.closes =
      if (save_config env sbody).1.code = 200 then 1 else 0) :=
  ⟨write_config_closes_aux env body h1, save_config_closes_aux env sbody h2⟩

/-- Witness for the amended C1 at a concrete device and bodies. -/
theorem close_iff_success_after_open_witness :
    (write_config envQuiet (some ⟨some "/dev/ttyUSB0", some 115200, some []⟩)).2.openOk = 1 ∧
    (save_config envQuiet (some ⟨some "/dev/ttyUSB0", some 115200⟩)).2.openOk = 1 ∧
    (((write_config envQuiet (some ⟨some "/dev/ttyUSB0", some 115200, some []⟩)).2.closes =
        if (write_config envQuiet
            (some ⟨some "/dev/ttyUSB0", some 115200, some []⟩)).1.code = 200 then 1 else 0) ∧
      ((save_config envQuiet (some ⟨some "/dev/ttyUSB0", some 115200⟩)).2.closes =
        if (save_config envQuiet
            (some ⟨some "/dev/ttyUSB0", some 115200⟩)).1.code = 200 then 1 else 0)) :=
  ⟨by decide, by decide,
    close_iff_success_after_open envQuiet
      (some ⟨some "/dev/ttyUSB0", some 115200, some []⟩)
      (some ⟨some "/dev/ttyUSB0", some 115200⟩) (by decide) (by decide)⟩

/-- Counterexample to claim C2 as stated: the line arriving at tick 5 of the
window consists only of bytes the ascii codec cannot decode, yet the drained
transcript is empty: the distinguishable binary-data annotation is never
recorded, because the `errors=ignore` decode silently drops the bytes and
the `except UnicodeDecodeError` branch is unreachable. -/
theorem binary_marker_never_recorded :
    (∀ b ∈ [255, 254, 200], (128 : Nat) ≤ b) ∧
    envPollC2 5 = PollEvent.line [255, 254, 200] ∧
    (drainResponses envPollC2 "command" 0).1 = [] ∧
    "Received: (Binary data - cannot decode as ASCII)" ∉
      (drainResponses envPollC2 "command" 0).1 := by
  have h3 : (drainResponses envPollC2 "command" 0).1 = [] := by decide
  exact ⟨by decide, by decide, h3, by rw [h3]; exact List.not_mem_nil _⟩

/-- Claim C2, amended: bytes that cannot be decoded as ASCII are silently
dropped by the `errors=ignore` decode, so a response line consisting
entirely of such bytes produces no transcript entry at all (in particular
no binary-data annotation); no failure is raised by decoding and the request
still reports overall success whatever the poll stream delivers. -/
theorem undecodable_bytes_dropped_request_succeeds
    (phase : String) (bs : List Nat) (hbs : ∀ b ∈ bs, 128 ≤ b)
    (env : SerialBehavior) (port : String) (baud : Int) (cmds : List String)
    (hp : port ≠ "") (hb : baud ≠ 0) (hopen : env.openErr = none)
    (hw : env.writeErrs.all Option.isNone = true)
    (hascii : ∀ c ∈ cmds, isAsciiString c = true) :
    pollStep phase (PollEvent.line bs) = none ∧
    (write_config env (some ⟨some port, some baud, some cmds⟩)).1.code = 200 ∧
    (write_config env (some ⟨some port, some baud, some cmds⟩)).1.jstatus = "success" := by
  have hsucc := write_config_success env port baud cmds hp hb hopen hw hascii
  have hdec : decodeAsciiIgnore bs = "" := by
    unfold decodeAsciiIgnore
    have hnil : bs.filterMap (fun b => if b < 128 then some (Char.ofNat b) else none)
        = [] := by
      rw [List.filterMap_eq_nil_iff]
      intro b hbmem
      rw [if_neg]
      exact Nat.not_lt.mpr (hbs b hbmem)
    rw [hnil]
  have hps : pyStrip "" = "" := by decide
  refine ⟨by simp [pollStep, hdec, hps], by rw [hsucc], by rw [hsucc]⟩

/-- Witness for the amended C2: a fully undecodable line in the poll stream
of an otherwise successful request. -/
theorem undecodable_bytes_dropped_request_succeeds_witness :
    (∀ b ∈ [255, 254, 200], (128 : Nat) ≤ b) ∧
    ("/dev/ttyUSB0" : String) ≠ "" ∧ (115200 : Int) ≠ 0 ∧
    envUndecodable.openErr = none ∧
    envUndecodable.writeErrs.all Option.isNone = true ∧
    (∀ c ∈ ["LOG"], isAsciiString c = true) ∧
    (pollStep "command" (PollEvent.line [255, 254, 200]) = none ∧
      (write_config envUndecodable
          (some ⟨some "/dev/ttyUSB0", some 115200, some ["LOG"]⟩)).1.code = 200 ∧
      (write_config envUndecodable
          (some ⟨some "/dev/ttyUSB0", some 115200, some ["LOG"]⟩)).1.jstatus = "success") :=
  ⟨by decide, by decide, by decide, by decide, by decide, by decide,
    undecodable_bytes_dropped_request_succeeds "command" [255, 254, 200] (by decide)
      envUndecodable "/dev/ttyUSB0" 115200 ["LOG"]
      (by decide) (by decide) (by decide) (by decide) (by decide)⟩

/-- Claim C3: an I/O error raised by the read during a poll at offset `k` of
the drain window is caught and converted into the annotation
`Error reading during <phase>: <msg>` recorded in the transcript, and
polling continues for the remainder of the window: a response line arriving
at a later offset `j` of the same window is still captured. -/
theorem read_error_annotated_window_continues
    (poll : Nat → PollEvent) (phase m : String) (bs : List Nat) (start k j : Nat)
    (hk : poll (start + k) = PollEvent.readErr m)
    (hj : poll (start + j) = PollEvent.line bs)
    (hkj : k < j) (hjD : j < READ_RESPONSE_TICKS)
    (hne : pyStrip (decodeAsciiIgnore bs) ≠ "") :
    ("Error reading during " ++ phase ++ ": " ++ m)
        ∈ (drainResponses poll phase start).1 ∧
    ("Received: " ++ pyStrip (decodeAsciiIgnore bs))
        ∈ (drainResponses poll phase start).1 := by
  rw [drainResponses_closed]
  constructor
  · exact List.mem_filterMap.mpr
      ⟨k, List.mem_range.mpr (lt_trans hkj hjD), by rw [hk]; rfl⟩
  · refine List.mem_filterMap.mpr ⟨j, List.mem_range.mpr hjD, ?_⟩
    rw [hj]
    simp [pollStep, hne]

/-- Witness for C3: a concrete poll stream with a read error at tick 3 and
the line RTK at tick 7 of the same window. -/
theorem read_error_annotated_window_continues_witness :
    envPollC3 (0 + 3) = PollEvent.readErr "boom" ∧
    envPollC3 (0 + 7) = PollEvent.line [82, 84, 75] ∧
    3 < 7 ∧ 7 < READ_RESPONSE_TICKS ∧
    pyStrip (decodeAsciiIgnore [82, 84, 75]) ≠ "" ∧
    (("Error reading during " ++ "command" ++ ": " ++ "boom")
        ∈ (drainResponses envPollC3 "command" 0).1 ∧
      ("Received: " ++ pyStrip (decodeAsciiIgnore [82, 84, 75]))
        ∈ (drainResponses envPollC3 "command" 0).1) :=
  ⟨by decide, by decide, by decide, by decide, by decide,
    read_error_annotated_window_continues envPollC3 "command" "boom" [82, 84, 75]
      0 3 7 (by decide) (by decide) (by decide) (by decide) (by decide)⟩

/-- Claim C4: for every poll stream, the drain loop hands control back
exactly when the fixed window (`READ_RESPONSE_TICKS` ticks, that is
`READ_RESPONSE_DURATION` = 2 seconds) elapses — never early, no matter how
many lines arrive — and it polls the port at every tick of the window. -/
theorem drain_window_exact (poll : Nat → PollEvent) (phase : String) (start : Nat) :
    (drainResponses poll phase start).2 = start + READ_RESPONSE_TICKS ∧
    (drainResponses poll phase start).1 =
      (List.range READ_RESPONSE_TICKS).filterMap
        (fun i => pollStep phase (poll (start + i))) := by
  rw [drainResponses_closed]
  exact ⟨rfl, rfl⟩

/-- Claim C5: on a fully successful request, the byte strings transmitted on
the serial port are exactly, in order, `trim(command) + CRLF` encoded as
ASCII codepoints, one write per command. -/
theorem write_config_transmitted_bytes (env : SerialBehavior) (port : String)
    (baud : Int) (cmds : List String) (hp : port ≠ "") (hb : baud ≠ 0)
    (hopen : env.openErr = none) (hw : env.writeErrs.all Option.isNone = true)
    (hascii : ∀ c ∈ cmds, isAsciiString c = true) :
    (write_config env (some ⟨some port, some baud, some cmds⟩)).2.writes =
      cmds.map (fun cmd => (pyStrip cmd ++ "\r\n").data.map Char.toNat) := by
  rw [write_config_success env port baud cmds hp hb hopen hw hascii]
  rfl

/-- Witness for C5: the command surrounded by whitespace is transmitted as
the codepoints of `MODE ROVER\r\n`. -/
theorem write_config_transmitted_bytes_witness :
    ("/dev/ttyUSB0" : String) ≠ "" ∧ (115200 : Int) ≠ 0 ∧
    envQuiet.openErr = none ∧ envQuiet.writeErrs.all Option.isNone = true ∧
    (∀ c ∈ ["  MODE ROVER  "], isAsciiString c = true) ∧
    (write_config envQuiet
        (some ⟨some "/dev/ttyUSB0", some 115200, some ["  MODE ROVER  "]⟩)).2.writes =
      ["  MODE ROVER  "].map (fun cmd => (pyStrip cmd ++ "\r\n").data.map Char.toNat) ∧
    ["  MODE ROVER  "].map (fun cmd => (pyStrip cmd ++ "\r\n").data.map Char.toNat) =
      [[77, 79, 68, 69, 32, 82, 79, 86, 69, 82, 13, 10]] :=
  ⟨by decide, by decide, by decide, by decide, by decide,
    write_config_transmitted_bytes envQuiet "/dev/ttyUSB0" 115200 ["  MODE ROVER  "]
      (by decide) (by decide) (by decide) (by decide) (by decide),
    by decide⟩

/-- Claim C6 (on the modelled intent of app.py lines 100-162; the module as
shipped cannot even load because line 116 is indented with U+3000
characters, a Python SyntaxError): for a valid body on a device where open
and write succeed, `save_config` performs exactly one serial write whose
bytes are `SAVECONFIG\r\n` encoded as ASCII, runs exactly one drain window,
and has the same open/close lifecycle as `write_config`: one successful
open, one close, a 200 success response. -/
theorem save_config_single_write_single_drain (env : SerialBehavior)
    (port : String) (baud : Int) (hp : port ≠ "") (hb : baud ≠ 0)
    (hopen : env.openErr = none) (hw : env.writeErrs.all Option.isNone = true) :
    (save_config env (some ⟨some port, some baud⟩)).2.writes =
      ["SAVECONFIG\r\n".data.map Char.toNat] ∧
    (save_config env (some ⟨some port, some baud⟩)).2.drains = 1 ∧
    (save_config env (some ⟨some port, some baud⟩)).2.openAttempts = 1 ∧
    (save_config env (some ⟨some port, some baud⟩)).2.openOk = 1 ∧
    (save_config env (some ⟨some port, some baud⟩)).2.closes = 1 ∧
    (save_config env (some ⟨some port, some baud⟩)).1.code = 200 ∧
    (save_config env (some ⟨some port, some baud⟩)).1.jstatus = "success" := by
  have henc : encodeAscii "SAVECONFIG\r\n" =
      some ("SAVECONFIG\r\n".data.map Char.toNat) := by decide
  have hw0 : writeOutcome env 0 = none := writeOutcome_eq_none env hw 0
  simp [save_config, truthyStr, truthyInt, hp, hb, hopen, henc, hw0]

/-- Witness for C6 at a concrete device. -/
theorem save_config_single_write_single_drain_witness :
    ("/dev/ttyUSB0" : String) ≠ "" ∧ (115200 : Int) ≠ 0 ∧
    envQuiet.openErr = none ∧ envQuiet.writeErrs.all Option.isNone = true ∧
    ((save_config envQuiet (some ⟨some "/dev/ttyUSB0", some 115200⟩)).2.writes =
        ["SAVECONFIG\r\n".data.map Char.toNat] ∧
      (save_config envQuiet (some ⟨some "/dev/ttyUSB0", some 115200⟩)).2.drains = 1 ∧
      (save_config envQuiet (some ⟨some "/dev/ttyUSB0", some 115200⟩)).2.openAttempts = 1 ∧
      (save_config envQuiet (some ⟨some "/dev/ttyUSB0", some 115200⟩)).2.openOk = 1 ∧
      (save_config envQuiet (some ⟨some "/dev/ttyUSB0", some 115200⟩)).2.closes = 1 ∧
      (save_config envQuiet (some ⟨some "/dev/ttyUSB0", some 115200⟩)).1.code = 200 ∧
      (save_config envQuiet (some ⟨some "/dev/ttyUSB0", some 115200⟩)).1.jstatus = "success") :=
  ⟨by decide, by decide, by decide, by decide,
    save_config_single_write_single_drain envQuiet "/dev/ttyUSB0" 115200
      (by decide) (by decide) (by decide) (by decide)⟩

/-- Claim C7: when the body is absent or fails the truthiness validation of
line 43 (missing port, baudrate or commands in particular), `write_config`
responds HTTP 400 with status `error` and one of the two descriptive
messages of lines 37 and 44, and `serial.Serial` is never called. -/
theorem write_config_invalid_rejected (env : SerialBehavior)
    (body : Option WriteBody) (h : validWriteBody body = false) :
    (write_config env body).1.code = 400 ∧
    (write_config env body).1.jstatus = "error" ∧
    ((write_config env body).1.message = "No JSON data received" ∨
      (write_config env body).1.message = "Missing port, baudrate, or commands") ∧
    (write_config env body).2.openAttempts = 0 := by
  cases body with
  | none => exact ⟨rfl, rfl, Or.inl rfl, rfl⟩
  | some d =>
      have hv : (truthyStr d.port && truthyInt d.baudrate && d.commands.isSome)
          = false := by
        simpa [validWriteBody] using h
      simp [write_config, hv, mkErr, Trace.idle]

/-- Witness for C7: a request with no JSON body. -/
theorem write_config_invalid_rejected_witness :
    validWriteBody none = false ∧
    ((write_config envQuiet none).1.code = 400 ∧
      (write_config envQuiet none).1.jstatus = "error" ∧
      ((write_config envQuiet none).1.message = "No JSON data received" ∨
        (write_config envQuiet none).1.message = "Missing port, baudrate, or commands") ∧
      (write_config envQuiet none).2.openAttempts = 0) :=
  ⟨by decide, write_config_invalid_rejected envQuiet none (by decide)⟩

/-- Claim C8: when opening the serial port raises `SerialException`, both
endpoints return HTTP 500 with status `error`, the message contains the
port name, and no write and no drain is ever attempted. -/
theorem open_failure_500_port_in_message (env : SerialBehavior)
    (port e : String) (baud : Int) (cmds : List String)
    (hp : port ≠ "") (hb : baud ≠ 0) (hopen : env.openErr = some e) :
    ((write_config env (some ⟨some port, some baud, some cmds⟩)).1.code = 500 ∧
      (write_config env (some ⟨some port, some baud, some cmds⟩)).1.jstatus = "error" ∧
      (∃ pre post, (write_config env (some ⟨some port, some baud, some cmds⟩)).1.message
          = pre ++ port ++ post) ∧
      (write_config env (some ⟨some port, some baud, some cmds⟩)).2.writes = [] ∧
      (write_config env (some ⟨some port, some baud, some cmds⟩)).2.drains = 0 ∧
      (write_config env (some ⟨some port, some baud, some cmds⟩)).2.openAttempts = 1) ∧
    ((save_config env (some ⟨some port, some baud⟩)).1.code = 500 ∧
      (save_config env (some ⟨some port, some baud⟩)).1.jstatus = "error" ∧
      (∃ pre post, (save_config env (some ⟨some port, some baud⟩)).1.message
          = pre ++ port ++ post) ∧
      (save_config env (some ⟨some port, some baud⟩)).2.writes = []) := by
  have hwshape : write_config env (some ⟨some port, some baud, some cmds⟩) =
      (mkErr 500 (openFailMsg port e), ⟨1, 0, 0, [], 0⟩) := by
    simp [write_config, truthyStr, truthyInt, hp, hb, hopen]
  have hsshape : save_config env (some ⟨some port, some baud⟩) =
      (mkErr 500 (saveFailMsg port e), ⟨1, 0, 0, [], 0⟩) := by
    simp [save_config, truthyStr, truthyInt, hp, hb, hopen]
  rw [hwshape, hsshape]
  refine ⟨⟨rfl, rfl, ⟨"Failed to open or communicate with serial port \x27",
      "\x27. Error: " ++ e, ?_⟩, rfl, rfl, rfl⟩,
    rfl, rfl, ⟨"Failed to open or communicate with serial port \x27",
      "\x27 for saving. Error: " ++ e, ?_⟩, rfl⟩
  · show openFailMsg port e = _
    unfold openFailMsg
    rw [String.append_assoc]
  · show saveFailMsg port e = _
    unfold saveFailMsg
    rw [String.append_assoc]

/-- Witness for C8: opening /dev/ttyFAKE fails. -/
theorem open_failure_500_port_in_message_witness :
    ("/dev/ttyFAKE" : String) ≠ "" ∧ (9600 : Int) ≠ 0 ∧
    envOpenFail.openErr = some "No such file or directory" ∧
    ((write_config envOpenFail
        (some ⟨some "/dev/ttyFAKE", some 9600, some ["LOG"]⟩)).1.code = 500 ∧
      (write_config envOpenFail
        (some ⟨some "/dev/ttyFAKE", some 9600, some ["LOG"]⟩)).1.jstatus = "error" ∧
      (∃ pre post, (write_config envOpenFail
          (some ⟨some "/dev/ttyFAKE", some 9600, some ["LOG"]⟩)).1.message
          = pre ++ "/dev/ttyFAKE" ++ post) ∧
      (write_config envOpenFail
        (some ⟨some "/dev/ttyFAKE", some 9600, some ["LOG"]⟩)).2.writes = [] ∧
      (write_config envOpenFail
        (some ⟨some "/dev/ttyFAKE", some 9600, some ["LOG"]⟩)).2.drains = 0 ∧
      (write_config envOpenFail
        (some ⟨some "/dev/ttyFAKE", some 9600, some ["LOG"]⟩)).2.openAttempts = 1) ∧
    ((save_config envOpenFail (some ⟨some "/dev/ttyFAKE", some 9600⟩)).1.code = 500 ∧
      (save_config envOpenFail (some ⟨some "/dev/ttyFAKE", some 9600⟩)).1.jstatus = "error" ∧
      (∃ pre post, (save_config envOpenFail
          (some ⟨some "/dev/ttyFAKE", some 9600⟩)).1.message
          = pre ++ "/dev/ttyFAKE" ++ post) ∧
      (save_config envOpenFail (some ⟨some "/dev/ttyFAKE", some 9600⟩)).2.writes = []) :=
  ⟨by decide, by decide, by decide,
    open_failure_500_port_in_message envOpenFail "/dev/ttyFAKE"
      "No such file or directory" 9600 ["LOG"] (by decide) (by decide) (by decide)⟩

/-- Claim C9: a valid request with an empty commands list succeeds with
`received_data` the empty string, and the only hardware interaction is the
open/close pair: no writes and no drain windows, hence no reads. -/
theorem write_config_empty_commands (env : SerialBehavior) (port : String)
    (baud : Int) (hp : port ≠ "") (hb : baud ≠ 0) (hopen : env.openErr = none) :
    write_config env (some ⟨some port, some baud, some []⟩) =
      (⟨200, "success", "Configuration commands sent successfully.", some ""⟩,
        ⟨1, 1, 1, [], 0⟩) := by
  have hrun : runCommands env [] 0 10 [] [] 0 = ⟨none, [], [], 0, 10⟩ := rfl
  simp [write_config, truthyStr, truthyInt, hp, hb, hopen, hrun, finishWrite]
  rfl

/-- Witness for C9 at a concrete device. -/
theorem write_config_empty_commands_witness :
    ("/dev/ttyUSB0" : String) ≠ "" ∧ (115200 : Int) ≠ 0 ∧
    envQuiet.openErr = none ∧
    write_config envQuiet (some ⟨some "/dev/ttyUSB0", some 115200, some []⟩) =
      (⟨200, "success", "Configuration commands sent successfully.", some ""⟩,
        ⟨1, 1, 1, [], 0⟩) :=
  ⟨by decide, by decide, by decide,
    write_config_empty_commands envQuiet "/dev/ttyUSB0" 115200
      (by decide) (by decide) (by decide)⟩

/-- Claim C10: validation is by truthiness, not presence.  A present but
empty port string and a present but zero baudrate are rejected with HTTP 400
as missing (the port is never opened), a missing commands field is rejected,
while a present empty commands list passes validation and reaches the
`serial.Serial` call; `save_config` behaves the same for its two fields. -/
theorem validation_by_truthiness (env : SerialBehavior) :
    (write_config env (some ⟨some "", some 115200, some ["CMD"]⟩)).1.code = 400 ∧
    (write_config env (some ⟨some "", some 115200, some ["CMD"]⟩)).2.openAttempts = 0 ∧
    (write_config env (some ⟨some "/dev/ttyUSB0", some 0, some ["CMD"]⟩)).1.code = 400 ∧
    (write_config env (some ⟨some "/dev/ttyUSB0", some 0, some ["CMD"]⟩)).2.openAttempts = 0 ∧
    (write_config env (some ⟨some "/dev/ttyUSB0", some 115200, none⟩)).1.code = 400 ∧
    (write_config env (some ⟨some "/dev/ttyUSB0", some 115200, some []⟩)).1.code ≠ 400 ∧
    (write_config env (some ⟨some "/dev/ttyUSB0", some 115200, some []⟩)).2.openAttempts = 1 ∧
    (save_config env (some ⟨some "", some 115200⟩)).1.code = 400 ∧
    (save_config env (some ⟨some "/dev/ttyUSB0", some 0⟩)).1.code = 400 := by
  refine ⟨rfl, rfl, rfl, rfl, rfl, ?_, ?_, rfl, rfl⟩
  · cases ho : env.openErr with
    | some e => simp [write_config, truthyStr, truthyInt, ho, mkErr]
    | none => simp [write_config, truthyStr, truthyInt, ho, runCommands, finishWrite]
  · cases ho : env.openErr with
    | some e => simp [write_config, truthyStr, truthyInt, ho, mkErr]
    | none => simp [write_config, truthyStr, truthyInt, ho, runCommands, finishWrite]

end WTRTK
